import Mathlib

/-!
Verification of the casa-mais-perto server (`src/server.ts`, two revisions
concatenated in the repository, called `Rev1` and `Rev2` below) against its
natural-language specification.

The embedding models, straight from the source:
  * the three Prisma entities `User`, `Property`, `Image` and the store
    (`prisma/schema.prisma`), including the unique constraints on
    `User.email` and `User.username`;
  * JavaScript's `Number(string)` coercion (ECMA-262 `ToNumber` on strings),
    used by every handler that parses a path or query id;
  * the Joi validation schemas (`registerSchema`, `loginSchema`,
    `propertySchema`), including Joi's rejection of empty strings and of
    unknown keys;
  * bcrypt as an abstract salted hash (external collaborator): `hash` is
    injective per (password, salt) and `compare` succeeds exactly on the
    hashed password;
  * every request handler the claims mention, one Lean function per handler
    and revision, with the source's control flow (including its bugs)
    preserved.

Numbers carried by JSON bodies are modelled as exact rationals; no handler
performs arithmetic on them, so IEEE rounding is irrelevant here.  Prisma's
client rejects a non-integer JavaScript number supplied for an `Int` column
(a `PrismaClientValidationError`, landing in each handler's `catch` block),
which the model renders as the 500 branch.
-/

/-- Abstract model of the bcrypt digest (external collaborator).  The spec
contract is: `verify(p, hash(p, s)) = true` and `verify(p', hash(p, s)) =
false` for `p' ≠ p`; the digest is salted, with cost factor 10 as in the
source (`bcrypt.hash(password, 10)`). -/
structure Digest where
  hashedOf : String
  cost : Nat
  salt : Nat
deriving DecidableEq

def bcryptHash (password : String) (salt : Nat) : Digest :=
  ⟨password, 10, salt⟩

def bcryptCompare (password : String) (d : Digest) : Bool :=
  password == d.hashedOf

/-- Prisma model `User` (schema.prisma): unique `email` and `username`,
optional `picture`, password stored as a digest. -/
structure User where
  id : Int
  name : String
  email : String
  username : String
  password : Digest
  picture : Option String
deriving DecidableEq

/-- Prisma model `Property`. -/
structure Property where
  id : Int
  title : String
  description : String
  price : ℚ
  latitude : ℚ
  longitude : ℚ
  userId : Int
deriving DecidableEq

/-- Prisma model `Image`. -/
structure Image where
  id : Int
  url : String
  propertyId : Int
deriving DecidableEq

/-- The relational store, with the auto-increment counters for the two
tables the handlers insert into (no handler ever inserts an `Image`). -/
structure DB where
  users : List User
  properties : List Property
  images : List Image
  nextUserId : Int
  nextPropertyId : Int
deriving DecidableEq

def emptyDB : DB := ⟨[], [], [], 1, 1⟩

/-! JavaScript `Number(string)` coercion: ECMA-262 `ToNumber` applied to a
string.  Whitespace is trimmed; an empty remainder yields `0`; otherwise the
whole remainder must be a `StrNumericLiteral` (signed decimal with optional
fraction and exponent, `Infinity`, or an unsigned `0x`/`0o`/`0b` literal),
else the result is `NaN`. -/

inductive JsNum where
  | nan : JsNum
  | inf : Bool → JsNum
  | num : ℚ → JsNum
deriving DecidableEq

def isJsWs (c : Char) : Bool :=
  c == ' ' || c == '\t' || c == '\n' || c == '\r' ||
  c == '\u000B' || c == '\u000C' || c == '\u00A0' || c == '\uFEFF'

def jsTrimList (l : List Char) : List Char :=
  ((l.dropWhile isJsWs).reverse.dropWhile isJsWs).reverse

def decDigit? (c : Char) : Option Nat :=
  if c.isDigit then some (c.toNat - 48) else none

def hexDigit? (c : Char) : Option Nat :=
  if c.isDigit then some (c.toNat - 48)
  else if 'a' ≤ c && c ≤ 'f' then some (c.toNat - 87)
  else if 'A' ≤ c && c ≤ 'F' then some (c.toNat - 55)
  else none

def octDigit? (c : Char) : Option Nat :=
  if '0' ≤ c && c ≤ '7' then some (c.toNat - 48) else none

def binDigit? (c : Char) : Option Nat :=
  if c == '0' then some 0 else if c == '1' then some 1 else none

/-- Value of a nonempty digit string in the given base; `none` when empty or
when any character is not a digit of the base. -/
def digitsVal (base : Nat) (f : Char → Option Nat) (cs : List Char) : Option Nat :=
  match cs with
  | [] => none
  | _ => cs.foldl (fun acc c =>
      match acc, f c with
      | some a, some d => some (a * base + d)
      | _, _ => none) (some 0)

/-- Split at the first character satisfying `p`; `none` when there is none. -/
def splitOnFirst (p : Char → Bool) (cs : List Char) : Option (List Char × List Char) :=
  let s := cs.span (fun c => !(p c))
  match s.2 with
  | [] => none
  | _ :: t => some (s.1, t)

def pow10 (e : Int) : ℚ :=
  if 0 ≤ e then ((10 : ℚ) ^ e.toNat) else ((10 : ℚ) ^ (-e).toNat)⁻¹

/-- `DecimalDigits . DecimalDigits?` / `. DecimalDigits` / `DecimalDigits`. -/
def parseDecMantissa (cs : List Char) : Option ℚ :=
  match splitOnFirst (fun c => c == '.') cs with
  | none => (digitsVal 10 decDigit? cs).map (fun n => (n : ℚ))
  | some (ip, fp) =>
    match ip, fp with
    | [], [] => none
    | [], _ => (digitsVal 10 decDigit? fp).map (fun n => (n : ℚ) / pow10 (fp.length : Int))
    | _, [] => (digitsVal 10 decDigit? ip).map (fun n => (n : ℚ))
    | _, _ =>
      match digitsVal 10 decDigit? ip, digitsVal 10 decDigit? fp with
      | some i, some f => some ((i : ℚ) + (f : ℚ) / pow10 (fp.length : Int))
      | _, _ => none

/-- `SignedInteger` of the exponent part. -/
def parseSignedDigits (cs : List Char) : Option Int :=
  match cs with
  | '+' :: t => (digitsVal 10 decDigit? t).map (fun n => (n : Int))
  | '-' :: t => (digitsVal 10 decDigit? t).map (fun n => -(n : Int))
  | _ => (digitsVal 10 decDigit? cs).map (fun n => (n : Int))

/-- Unsigned decimal literal with optional exponent. -/
def parseDec (cs : List Char) : Option ℚ :=
  match splitOnFirst (fun c => c == 'e' || c == 'E') cs with
  | none => parseDecMantissa cs
  | some (m, e) =>
    match parseDecMantissa m, parseSignedDigits e with
    | some mv, some ev => some (mv * pow10 ev)
    | _, _ => none

/-- `StrDecimalLiteral`: optional sign, then `Infinity` or a decimal. -/
def jsDecOrInf (cs : List Char) : JsNum :=
  let sr : Bool × List Char :=
    match cs with
    | '+' :: t => (false, t)
    | '-' :: t => (true, t)
    | _ => (false, cs)
  if sr.2 == "Infinity".toList then JsNum.inf sr.1
  else
    match parseDec sr.2 with
    | some v => JsNum.num (if sr.1 then -v else v)
    | none => JsNum.nan

/-- `StrNumericLiteral` on the trimmed character list. -/
def jsStrNumeric (cs : List Char) : JsNum :=
  match cs with
  | [] => JsNum.num 0
  | '0' :: c :: t =>
    if c == 'x' || c == 'X' then
      match digitsVal 16 hexDigit? t with
      | some n => JsNum.num (n : ℚ)
      | none => JsNum.nan
    else if c == 'o' || c == 'O' then
      match digitsVal 8 octDigit? t with
      | some n => JsNum.num (n : ℚ)
      | none => JsNum.nan
    else if c == 'b' || c == 'B' then
      match digitsVal 2 binDigit? t with
      | some n => JsNum.num (n : ℚ)
      | none => JsNum.nan
    else jsDecOrInf cs
  | _ => jsDecOrInf cs

/-- `Number(s)` for a string argument. -/
def jsToNumber (s : String) : JsNum :=
  jsStrNumeric (jsTrimList s.toList)

/-! Joi validation layer.  `Joi.object` rejects unknown keys by default (the
one relevant here is an `images` key on the property schema, which the schema
does not declare); `Joi.string()` rejects the empty string; messages follow
Joi's defaults.  `validate` reports the first violation only (`abortEarly`).
Request bodies are modelled post-JSON-parse, a field being `none` when the
key is absent. -/

structure RegisterBody where
  name : Option String
  email : Option String
  username : Option String
  password : Option String
deriving DecidableEq

structure LoginBody where
  username : Option String
  password : Option String
deriving DecidableEq

structure PropertyBody where
  title : Option String
  description : Option String
  price : Option ℚ
  latitude : Option ℚ
  longitude : Option ℚ
  userId : Option Int
  images : Option (List String)
deriving DecidableEq

/-- `Joi.string().required()`. -/
def reqStr (key : String) (v : Option String) : Option String :=
  match v with
  | none => some ("\"" ++ key ++ "\" is required")
  | some s => if s = "" then some ("\"" ++ key ++ "\" is not allowed to be empty") else none

/-- `Joi.string().min(3).max(30).required()` for `username`. -/
def chkUsername (v : Option String) : Option String :=
  match v with
  | none => some "\"username\" is required"
  | some s =>
    if s = "" then some "\"username\" is not allowed to be empty"
    else if s.length < 3 then some "\"username\" length must be at least 3 characters long"
    else if 30 < s.length then some "\"username\" length must be less than or equal to 30 characters long"
    else none

/-- `Joi.string().min(6).required()` for `password`. -/
def chkPassword (v : Option String) : Option String :=
  match v with
  | none => some "\"password\" is required"
  | some s =>
    if s = "" then some "\"password\" is not allowed to be empty"
    else if s.length < 6 then some "\"password\" length must be at least 6 characters long"
    else none

/-- Split a character list on a separator character (keeping empty parts,
like JavaScript's `split`). -/
def splitOnChar (c : Char) (l : List Char) : List (List Char) :=
  match l with
  | [] => [[]]
  | x :: xs =>
    if x == c then [] :: splitOnChar c xs
    else
      match splitOnChar c xs with
      | [] => [[x]]
      | h :: t => (x :: h) :: t

/-- Modelled: Joi's `.email()` format check (external library), abstracted to
one `@` separating a nonempty local part from a domain of at least two
nonempty dot-separated segments. -/
def joiEmailShape (s : String) : Bool :=
  match splitOnChar '@' s.toList with
  | [lp, dom] =>
    let segs := splitOnChar '.' dom
    lp != [] && decide (2 ≤ segs.length) && segs.all (fun t => t != [])
  | _ => false

/-- Rev1 `email`: `Joi.string().required()` (no format check). -/
def chkEmailRev1 (v : Option String) : Option String :=
  reqStr "email" v

/-- Rev2 `email`: `Joi.string().email().required()`. -/
def chkEmailRev2 (v : Option String) : Option String :=
  match v with
  | none => some "\"email\" is required"
  | some s =>
    if s = "" then some "\"email\" is not allowed to be empty"
    else if joiEmailShape s then none
    else some "\"email\" must be a valid email"

/-- `Joi.number().required()` on a JSON number field. -/
def reqNum (key : String) (v : Option ℚ) : Option String :=
  match v with
  | none => some ("\"" ++ key ++ "\" is required")
  | some _ => none

/-- `Joi.number().required()` on the integer `userId` field. -/
def reqNumI (key : String) (v : Option Int) : Option String :=
  match v with
  | none => some ("\"" ++ key ++ "\" is required")
  | some _ => none

/-- `Joi.object` rejects keys the schema does not declare; `images` is the
unknown key the claims exercise. -/
def chkImagesAbsent (v : Option (List String)) : Option String :=
  match v with
  | some _ => some "\"images\" is not allowed"
  | none => none

def joiRegisterRev1 (b : RegisterBody) : Option String :=
  match reqStr "name" b.name with
  | some e => some e
  | none =>
    match chkEmailRev1 b.email with
    | some e => some e
    | none =>
      match chkUsername b.username with
      | some e => some e
      | none => chkPassword b.password

def joiRegisterRev2 (b : RegisterBody) : Option String :=
  match reqStr "name" b.name with
  | some e => some e
  | none =>
    match chkEmailRev2 b.email with
    | some e => some e
    | none =>
      match chkUsername b.username with
      | some e => some e
      | none => chkPassword b.password

def joiLogin (b : LoginBody) : Option String :=
  match chkUsername b.username with
  | some e => some e
  | none => chkPassword b.password

def joiProperty (b : PropertyBody) : Option String :=
  match reqStr "title" b.title with
  | some e => some e
  | none =>
    match reqStr "description" b.description with
    | some e => some e
    | none =>
      match reqNum "price" b.price with
      | some e => some e
      | none =>
        match reqNum "latitude" b.latitude with
        | some e => some e
        | none =>
          match reqNum "longitude" b.longitude with
          | some e => some e
          | none =>
            match reqNumI "userId" b.userId with
            | some e => some e
            | none => chkImagesAbsent b.images

/-- The object the Rev1 PUT handler validates: it is rebuilt from the
destructured body as `{ title, description, latitude, longitude, userId }`,
so `price` is always absent from it (and no `images` key exists on it). -/
def putValidationBody (b : PropertyBody) : PropertyBody :=
  ⟨b.title, b.description, none, b.latitude, b.longitude, b.userId, none⟩

/-! Persistence gateway: the Prisma calls the handlers make, over `DB`. -/

def findUserByUsername (db : DB) (u : String) : Option User :=
  db.users.find? (fun x => x.username == u)

def findUserByEmail (db : DB) (e : String) : Option User :=
  db.users.find? (fun x => x.email == e)

def findUserById (db : DB) (i : Int) : Option User :=
  db.users.find? (fun x => x.id == i)

def findPropertyById (db : DB) (i : Int) : Option Property :=
  db.properties.find? (fun x => x.id == i)

def imagesOf (db : DB) (pid : Int) : List Image :=
  db.images.filter (fun i => i.propertyId == pid)

def propertiesOfUser (db : DB) (uid : Int) : List Property :=
  db.properties.filter (fun p => p.userId == uid)

/-- `prisma.user.create`: enforces the unique constraints on `username` and
`email` (migration `User_username_key`, `User_email_key`); a violation
throws, which the callers' `catch` blocks turn into a 500. -/
def prismaUserCreate (db : DB) (name email username : String) (password : Digest)
    (picture : Option String) : Except String (User × DB) :=
  if (findUserByUsername db username).isSome then
    Except.error "P2002 unique constraint failed: username"
  else if (findUserByEmail db email).isSome then
    Except.error "P2002 unique constraint failed: email"
  else
    let u : User := ⟨db.nextUserId, name, email, username, password, picture⟩
    Except.ok (u, ⟨db.users ++ [u], db.properties, db.images, db.nextUserId + 1, db.nextPropertyId⟩)

/-- HTTP response shape: status plus the `error` / `message` / payload keys
the handlers put in the JSON body.  The payload is the full record handed to
`reply.send`, serialized field by field (so a `User` payload serializes its
stored password digest). -/
structure Resp (α : Type) where
  status : Nat
  error : Option String
  message : Option String
  payload : Option α
deriving DecidableEq

/-! Request handlers, one function per route and revision, translated from
`src/server.ts`.  The bcrypt salt drawn for a hash call is passed in as a
parameter (bcrypt salts randomly per call); `Rev2`'s Google login likewise
takes the already-verified token payload and its random temporary password,
since token verification is an external collaborator. -/

/-- `POST /users`, revision 1 (checks username then email before creating). -/
def registerRev1 (b : RegisterBody) (salt : Nat) (db : DB) : Resp User × DB :=
  match joiRegisterRev1 b with
  | some e => (⟨400, some e, none, none⟩, db)
  | none =>
    if (findUserByUsername db (b.username.getD "")).isSome then
      (⟨409, some "Username já utilizado", none, none⟩, db)
    else if (findUserByEmail db (b.email.getD "")).isSome then
      (⟨409, some "E-mail já utilizado", none, none⟩, db)
    else
      match prismaUserCreate db (b.name.getD "") (b.email.getD "") (b.username.getD "")
          (bcryptHash (b.password.getD "") salt) none with
      | Except.ok (u, db1) => (⟨201, none, none, some u⟩, db1)
      | Except.error _ => (⟨500, some "Failed to create user", none, none⟩, db)

/-- `POST /users`, revision 2 (checks only username before creating; a
duplicate email reaches `user.create` and hits the unique constraint). -/
def registerRev2 (b : RegisterBody) (salt : Nat) (db : DB) : Resp User × DB :=
  match joiRegisterRev2 b with
  | some e => (⟨400, some e, none, none⟩, db)
  | none =>
    if (findUserByUsername db (b.username.getD "")).isSome then
      (⟨409, some "Username já utilizado", none, none⟩, db)
    else
      match prismaUserCreate db (b.name.getD "") (b.email.getD "") (b.username.getD "")
          (bcryptHash (b.password.getD "") salt) none with
      | Except.ok (u, db1) => (⟨201, none, none, some u⟩, db1)
      | Except.error _ => (⟨500, some "Falha ao criar usuário", none, none⟩, db)

/-- `POST /session`, revision 1.  The source tests
`!user || !bcrypt.compare(password, user.password)` without awaiting the
promise; a Promise object is always truthy, so the second disjunct is always
false and the handler succeeds for any existing username. -/
def loginRev1 (b : LoginBody) (db : DB) : Resp User :=
  match joiLogin b with
  | some e => ⟨400, some e, none, none⟩
  | none =>
    match findUserByUsername db (b.username.getD "") with
    | none => ⟨401, some "Invalid username or password", none, none⟩
    | some u => ⟨200, none, some "Login successful", some u⟩

/-- `POST /session`, revision 2 (awaits `bcrypt.compare`). -/
def loginRev2 (b : LoginBody) (db : DB) : Resp User :=
  match joiLogin b with
  | some e => ⟨400, some e, none, none⟩
  | none =>
    match findUserByUsername db (b.username.getD "") with
    | none => ⟨401, some "Invalid username or password", none, none⟩
    | some u =>
      if bcryptCompare (b.password.getD "") u.password then
        ⟨200, none, some "Login successful", some u⟩
      else ⟨401, some "Invalid username or password", none, none⟩

/-- The verification call of `POST /google-login`, revision 2:
`google.auth.OAuth2.verifyIdToken(...)`.  `google.auth.OAuth2` is the
`OAuth2Client` class and `verifyIdToken` an instance method on its
prototype, so the static property access yields `undefined` and the call
throws a TypeError on every request, before any ticket or payload exists
(the client instance constructed earlier in the file is never used). -/
def oauth2StaticVerifyIdToken (_idToken : String) :
    Except String (String × String × Option String) :=
  Except.error "TypeError: google.auth.OAuth2.verifyIdToken is not a function"

/-- The `if (payload)` block of `POST /google-login`, revision 2:
`prisma.user.upsert` keyed by email with `update: {}` (writes nothing) and a
create branch using the email as username and a hashed random temporary
password.  Dead code in the source: `oauth2StaticVerifyIdToken` throws
before any payload is produced. -/
def googleUpsertRev2 (email name : String) (picture : Option String)
    (tempPassword : String) (salt : Nat) (db : DB) : Resp User × DB :=
  match findUserByEmail db email with
  | some u => (⟨200, none, some "Login successful", some u⟩, db)
  | none =>
    match prismaUserCreate db name email email (bcryptHash tempPassword salt) picture with
    | Except.ok (u, db1) => (⟨200, none, some "Login successful", some u⟩, db1)
    | Except.error _ => (⟨500, some "Erro no login com o Google", none, none⟩, db)

/-- `POST /google-login`, revision 2, full handler: the broken static
verification call throws on every request, so the catch answers 500 and the
upsert branch is unreachable. -/
def googleLoginRev2 (idToken tempPassword : String) (salt : Nat) (db : DB) :
    Resp User × DB :=
  match oauth2StaticVerifyIdToken idToken with
  | Except.error _ => (⟨500, some "Erro no login com o Google", none, none⟩, db)
  | Except.ok (email, name, picture) =>
    googleUpsertRev2 email name picture tempPassword salt db

/-- `GET /users/:id`, revision 1.  `Number(id)` NaN is the only malformed-id
rejection; a non-integer or infinite value reaches `findUnique` on the `Int`
column, whose thrown validation error the `catch` turns into 500. -/
def getUserByIdRev1 (raw : String) (db : DB) : Resp User :=
  match jsToNumber raw with
  | JsNum.nan => ⟨400, some "Invalid userId", none, none⟩
  | JsNum.inf _ => ⟨500, some "Failed to fetch user", none, none⟩
  | JsNum.num q =>
    if q.den == 1 then
      match findUserById db q.num with
      | none => ⟨404, some "Usuário não encontrado", none, none⟩
      | some u => ⟨200, none, none, some u⟩
    else ⟨500, some "Failed to fetch user", none, none⟩

/-- `POST /property`, revision 1: validation, owner existence check, then
`property.create` with the six scalar fields only — the schema has no
`images` key and the create inserts no `Image` rows. -/
def createPropertyRev1 (b : PropertyBody) (db : DB) : Resp Property × DB :=
  match joiProperty b with
  | some e => (⟨400, some e, none, none⟩, db)
  | none =>
    match findUserById db (b.userId.getD 0) with
    | none => (⟨404, some "Usuário não encontrado, deve estar logado para adicionar!", none, none⟩, db)
    | some _ =>
      let p : Property := ⟨db.nextPropertyId, b.title.getD "", b.description.getD "",
        b.price.getD 0, b.latitude.getD 0, b.longitude.getD 0, b.userId.getD 0⟩
      (⟨201, none, none, some p⟩,
       ⟨db.users, db.properties ++ [p], db.images, db.nextUserId, db.nextPropertyId + 1⟩)

/-- `GET /property/user?userId=`, revision 1: `findMany` with images
included; an empty result is reported as 404 with a `message` key. -/
def propsByUserRev1 (raw : String) (db : DB) : Resp (List (Property × List Image)) :=
  match jsToNumber raw with
  | JsNum.nan => ⟨400, some "UserId é obrigatório e deve ser um número", none, none⟩
  | JsNum.inf _ => ⟨500, some "Falha ao buscar imóveis", none, none⟩
  | JsNum.num q =>
    if q.den == 1 then
      let items := (propertiesOfUser db q.num).map (fun p => (p, imagesOf db p.id))
      if items.isEmpty then ⟨404, none, some "Nenhum imóvel encontrado para este usuário", none⟩
      else ⟨200, none, none, some items⟩
    else ⟨500, some "Falha ao buscar imóveis", none, none⟩

/-- `GET /imoveis/:id`, revision 1. -/
def getImovelRev1 (raw : String) (db : DB) : Resp (Property × List Image) :=
  match jsToNumber raw with
  | JsNum.nan => ⟨400, some "ID deve ser um número válido", none, none⟩
  | JsNum.inf _ => ⟨500, some "Falha ao buscar imóvel", none, none⟩
  | JsNum.num q =>
    if q.den == 1 then
      match findPropertyById db q.num with
      | none => ⟨404, some "Imóvel não encontrado", none, none⟩
      | some p => ⟨200, none, none, some (p, imagesOf db p.id)⟩
    else ⟨500, some "Falha ao buscar imóvel", none, none⟩

/-- `PUT /property/:id`, revision 1: id NaN check, then validation of the
rebuilt `{ title, description, latitude, longitude, userId }` object (which
always lacks the required `price`), then — were validation ever to pass —
existence check and an update writing title, description, latitude and
longitude only. -/
def putPropertyRev1 (raw : String) (b : PropertyBody) (db : DB) :
    Resp (Property × List Image) × DB :=
  match jsToNumber raw with
  | JsNum.nan => (⟨400, some "ID do imóvel deve ser um número", none, none⟩, db)
  | JsNum.inf _ =>
    (match joiProperty (putValidationBody b) with
     | some e => (⟨400, some e, none, none⟩, db)
     | none => (⟨500, some "Falha ao editar imóvel", none, none⟩, db))
  | JsNum.num q =>
    match joiProperty (putValidationBody b) with
    | some e => (⟨400, some e, none, none⟩, db)
    | none =>
      if q.den == 1 then
        match findPropertyById db q.num with
        | none => (⟨404, some "Imóvel não encontrado", none, none⟩, db)
        | some old =>
          let p : Property := ⟨old.id, b.title.getD "", b.description.getD "",
            old.price, b.latitude.getD 0, b.longitude.getD 0, old.userId⟩
          let db1 : DB := ⟨db.users,
            db.properties.map (fun x => if x.id == old.id then p else x),
            db.images, db.nextUserId, db.nextPropertyId⟩
          (⟨200, none, none, some (p, imagesOf db1 p.id)⟩, db1)
      else (⟨500, some "Falha ao editar imóvel", none, none⟩, db)

/-- `DELETE /property/:id`, revision 1.  After `image.deleteMany` the source
calls `prisma.image.delete({ where: { id: propertyId } })` — on the image
table, though its comment says it deletes the property.  When no image has
that id the call throws (P2025) into the catch; either way the `Property`
row is never deleted, and the `deleteMany` is not rolled back (the two calls
share no transaction). -/
def deletePropertyRev1 (raw : String) (db : DB) : Resp Unit × DB :=
  match jsToNumber raw with
  | JsNum.nan => (⟨400, some "ID do imóvel deve ser um número válido", none, none⟩, db)
  | JsNum.inf _ => (⟨500, some "Falha ao deletar imóvel", none, none⟩, db)
  | JsNum.num q =>
    if q.den == 1 then
      match findPropertyById db q.num with
      | none => (⟨404, some "Imóvel não encontrado", none, none⟩, db)
      | some _ =>
        let db1 : DB := ⟨db.users, db.properties,
          db.images.filter (fun i => i.propertyId != q.num),
          db.nextUserId, db.nextPropertyId⟩
        if (db1.images.find? (fun i => i.id == q.num)).isSome then
          (⟨200, none, some "Imóvel deletado com sucesso", none⟩,
           ⟨db1.users, db1.properties, db1.images.filter (fun i => i.id != q.num),
            db1.nextUserId, db1.nextPropertyId⟩)
        else (⟨500, some "Falha ao deletar imóvel", none, none⟩, db1)
    else (⟨500, some "Falha ao deletar imóvel", none, none⟩, db)

/-- `DELETE /property/:id`, revision 2: `image.deleteMany` then
`property.delete`. -/
def deletePropertyRev2 (raw : String) (db : DB) : Resp Unit × DB :=
  match jsToNumber raw with
  | JsNum.nan => (⟨400, some "ID do imóvel deve ser um número válido", none, none⟩, db)
  | JsNum.inf _ => (⟨500, some "Falha ao deletar imóvel", none, none⟩, db)
  | JsNum.num q =>
    if q.den == 1 then
      match findPropertyById db q.num with
      | none => (⟨404, some "Imóvel não encontrado", none, none⟩, db)
      | some _ =>
        (⟨200, none, some "Imóvel deletado com sucesso", none⟩,
         ⟨db.users, db.properties.filter (fun p => p.id != q.num),
          db.images.filter (fun i => i.propertyId != q.num),
          db.nextUserId, db.nextPropertyId⟩)
    else (⟨500, some "Falha ao deletar imóvel", none, none⟩, db)

/-! Concrete fixtures used by the closed theorems and witnesses. -/

def user0 : User := ⟨1, "Ana", "ana@x.com", "ana1a", bcryptHash "secret1" 0, none⟩

def prop0 : Property := ⟨1, "Casa", "Boa", 10, 0, 0, 1⟩

def img0 : Image := ⟨1, "http://img/1.jpg", 1⟩

def db0 : DB := ⟨[user0], [prop0], [img0], 2, 2⟩

def mkReg (n e un pw : String) : RegisterBody := ⟨some n, some e, some un, some pw⟩

def regBodyAna : RegisterBody := mkReg "Ana" "ana@x.com" "ana1a" "secret1"

def regBodyBia : RegisterBody := mkReg "Bia" "ana@x.com" "bobby1" "secret2"

def propBodyImgs : PropertyBody :=
  ⟨some "Casa", some "Boa", some 10, some 1, some 2, some 1, some ["http://a.jpg", "http://b.jpg"]⟩

def propBodyOk : PropertyBody :=
  ⟨some "Casa", some "Boa", some 10, some 1, some 2, some 1, none⟩

def propBodyUser5 : PropertyBody :=
  ⟨some "Casa", some "Boa", some 10, some 1, some 2, some 5, none⟩

/-! Helper lemmas. -/

/-- A whitespace-only (or empty) string coerces to `0`, as `ToNumber` trims
it to the empty numeric literal. -/
theorem jsToNumber_all_ws (s : String) (h : s.toList.all isJsWs = true) :
    jsToNumber s = JsNum.num 0 := by
  have h1 : s.toList.dropWhile isJsWs = [] := by
    rw [List.dropWhile_eq_nil_iff]
    intro x hx
    exact List.all_eq_true.mp h x hx
  unfold jsToNumber jsTrimList
  rw [h1]
  rfl

/-- The object the Rev1 PUT handler validates always fails validation (its
`price` key is always absent), and the resulting Joi message is never the
handler's invalid-id message. -/
theorem putJoi_exists (b : PropertyBody) :
    ∃ e, joiProperty (putValidationBody b) = some e ∧ e ≠ "ID do imóvel deve ser um número" := by
  cases hb : b.title with
  | none =>
    refine ⟨"\"title\" is required", ?_, by decide⟩
    simp [joiProperty, putValidationBody, reqStr, hb]
  | some t =>
    by_cases ht : t = ""
    · refine ⟨"\"title\" is not allowed to be empty", ?_, by decide⟩
      simp [joiProperty, putValidationBody, reqStr, hb, ht]
    · cases hd : b.description with
      | none =>
        refine ⟨"\"description\" is required", ?_, by decide⟩
        simp [joiProperty, putValidationBody, reqStr, hb, ht, hd]
      | some d =>
        by_cases hde : d = ""
        · refine ⟨"\"description\" is not allowed to be empty", ?_, by decide⟩
          simp [joiProperty, putValidationBody, reqStr, hb, ht, hd, hde]
        · refine ⟨"\"price\" is required", ?_, by decide⟩
          simp [joiProperty, putValidationBody, reqStr, reqNum, hb, ht, hd, hde]

/-- A body that passes the property schema carries no `images` key (the
schema rejects unknown keys). -/
theorem joiProperty_none_images (b : PropertyBody) (h : joiProperty b = none) :
    b.images = none := by
  unfold joiProperty at h
  split at h
  · simp at h
  split at h
  · simp at h
  split at h
  · simp at h
  split at h
  · simp at h
  split at h
  · simp at h
  split at h
  · simp at h
  cases hbi : b.images with
  | none => rfl
  | some l => rw [hbi] at h; simp [chkImagesAbsent] at h

theorem getUser_400_iff (raw : String) (db : DB) :
    (getUserByIdRev1 raw db).status = 400 ↔ jsToNumber raw = JsNum.nan := by
  unfold getUserByIdRev1
  cases hn : jsToNumber raw with
  | nan => simp
  | inf neg => simp
  | num q =>
    simp only
    split
    · cases hf : findUserById db q.num <;> simp
    · simp

theorem propsByUser_400_iff (raw : String) (db : DB) :
    (propsByUserRev1 raw db).status = 400 ↔ jsToNumber raw = JsNum.nan := by
  unfold propsByUserRev1
  cases hn : jsToNumber raw with
  | nan => simp
  | inf neg => simp
  | num q =>
    simp only
    split
    · split <;> simp
    · simp

theorem getImovel_400_iff (raw : String) (db : DB) :
    (getImovelRev1 raw db).status = 400 ↔ jsToNumber raw = JsNum.nan := by
  unfold getImovelRev1
  cases hn : jsToNumber raw with
  | nan => simp
  | inf neg => simp
  | num q =>
    simp only
    split
    · cases hf : findPropertyById db q.num <;> simp
    · simp

theorem deleteRev1_400_iff (raw : String) (db : DB) :
    ((deletePropertyRev1 raw db).1.status = 400 ↔ jsToNumber raw = JsNum.nan) := by
  unfold deletePropertyRev1
  cases hn : jsToNumber raw with
  | nan => simp
  | inf neg => simp
  | num q =>
    simp only
    split
    · split
      · simp
      · split <;> simp
    · simp

theorem putRev1_idError_iff (raw : String) (b : PropertyBody) (db : DB) :
    ((putPropertyRev1 raw b db).1.error = some "ID do imóvel deve ser um número" ↔
      jsToNumber raw = JsNum.nan) := by
  obtain ⟨e, he, hne⟩ := putJoi_exists b
  unfold putPropertyRev1
  cases hn : jsToNumber raw with
  | nan => simp
  | inf neg => rw [he]; simp [hne]
  | num q => rw [he]; simp [hne]

/-! Claim theorems. -/

/-- C1: the claim says DELETE /property/:id removes every Image row of the
property and the Property row itself and returns 200.  Revision 1 instead
deletes the dependent images and then calls `prisma.image.delete` with the
property id (where its comment says the property delete belongs): on a store
holding property 1 with image 1, the images are gone but the Property row
survives and the request ends in the catch with 500.  Revision 2 behaves as
claimed on the same input. -/
theorem c1_deleteRev1_leaves_property_row :
    deletePropertyRev1 "1" db0 =
      (⟨500, some "Falha ao deletar imóvel", none, none⟩, ⟨[user0], [prop0], [], 2, 2⟩) ∧
    deletePropertyRev2 "1" db0 =
      (⟨200, none, some "Imóvel deletado com sucesso", none⟩, ⟨[user0], [], [], 2, 2⟩) := by
  decide

/-- C2: the claim says PUT /property/:id replaces the scalar fields and the
image set.  Revision 1 validates an object rebuilt without the required
`price` key, so every request — any id, any body, any store — fails
validation with 400 and the store is never touched (and the update, were it
reachable, writes neither price nor images). -/
theorem c2_putRev1_always_400 (raw : String) (b : PropertyBody) (db : DB) :
    (putPropertyRev1 raw b db).1.status = 400 ∧ (putPropertyRev1 raw b db).2 = db := by
  obtain ⟨e, he, -⟩ := putJoi_exists b
  unfold putPropertyRev1
  cases hn : jsToNumber raw with
  | nan => exact ⟨rfl, rfl⟩
  | inf neg => rw [he]; exact ⟨rfl, rfl⟩
  | num q => rw [he]; exact ⟨rfl, rfl⟩

/-- C3: the claim says POST /session returns 200 only when the password
verifies.  Revision 1 does not await `bcrypt.compare`, and the returned
Promise is truthy, so a stored user whose digest verifies only "secret1"
is logged in with the non-verifying password "wrongpw1"; revision 2, which
awaits the comparison, rejects the same request with 401. -/
theorem c3_loginRev1_accepts_wrong_password :
    loginRev1 ⟨some "ana1a", some "wrongpw1"⟩ db0 =
      ⟨200, none, some "Login successful", some user0⟩ ∧
    bcryptCompare "wrongpw1" user0.password = false ∧
    loginRev2 ⟨some "ana1a", some "wrongpw1"⟩ db0 =
      ⟨401, some "Invalid username or password", none, none⟩ := by
  decide

/-- C4: the claim says the 201 registration response and the 200 login
response never contain the stored password digest.  Both handlers send the
full stored record: registering Ana returns 201 with a user whose serialized
`password` field is exactly the stored digest, and logging in afterwards
returns 200 with the same digest in the body. -/
theorem c4_register_login_responses_include_digest :
    (registerRev1 regBodyAna 0 emptyDB).1.status = 201 ∧
    (registerRev1 regBodyAna 0 emptyDB).1.payload.map User.password =
      some (bcryptHash "secret1" 0) ∧
    (loginRev1 ⟨some "ana1a", some "secret1"⟩ (registerRev1 regBodyAna 0 emptyDB).2).status = 200 ∧
    (loginRev1 ⟨some "ana1a", some "secret1"⟩ (registerRev1 regBodyAna 0 emptyDB).2).payload.map
      User.password = some (bcryptHash "secret1" 0) := by
  decide

/-- C5 counterexample: in revision 2 a second registration sharing the email
but not the username of the first passes the (username-only) pre-check,
reaches `user.create`, hits the unique-email constraint and returns 500 —
not the 409 the claim states; no second row is created. -/
theorem c5_rev2_duplicate_email_500 :
    (registerRev2 regBodyAna 0 emptyDB).1.status = 201 ∧
    (registerRev2 regBodyBia 1 (registerRev2 regBodyAna 0 emptyDB).2).1.status = 500 ∧
    (registerRev2 regBodyBia 1 (registerRev2 regBodyAna 0 emptyDB).2).1.status ≠ 409 ∧
    (registerRev2 regBodyBia 1 (registerRev2 regBodyAna 0 emptyDB).2).2 =
      (registerRev2 regBodyAna 0 emptyDB).2 := by
  decide

/-- C6 counterexample: the claim says a valid create request with a
non-empty image list gets its property and image rows inserted and a 201.
The property schema declares no `images` key and Joi rejects unknown keys,
so the request is refused with 400 and the store is untouched. -/
theorem c6_create_with_images_rejected :
    createPropertyRev1 propBodyImgs db0 =
      (⟨400, some "\"images\" is not allowed", none, none⟩, db0) := by
  decide

/-- C7: a schema-valid create-property request whose userId matches no user
row gets 404 and leaves the store exactly as it was. -/
theorem c7_create_unknown_user_404 (b : PropertyBody) (db : DB) (uid : Int)
    (hv : joiProperty b = none) (hu : b.userId = some uid)
    (hne : findUserById db uid = none) :
    createPropertyRev1 b db =
      (⟨404, some "Usuário não encontrado, deve estar logado para adicionar!", none, none⟩, db) := by
  unfold createPropertyRev1
  rw [hv]
  simp [hu, hne]

theorem c7_create_unknown_user_404_witness :
    joiProperty propBodyUser5 = none ∧ propBodyUser5.userId = some 5 ∧
    findUserById db0 5 = none ∧
    createPropertyRev1 propBodyUser5 db0 =
      (⟨404, some "Usuário não encontrado, deve estar logado para adicionar!", none, none⟩, db0) :=
  ⟨by decide, by decide, by decide,
   c7_create_unknown_user_404 propBodyUser5 db0 5 (by decide) (by decide) (by decide)⟩

/-- C9: the claim says a Google login whose token email already belongs to a
stored user returns that user with every field as it was, the upsert's empty
update branch writing nothing.  The route never gets there: `verifyIdToken`
is invoked as a static on the `OAuth2Client` class, the property access
yields `undefined`, and the call throws a TypeError, so every request —
whatever the token, temporary password, salt or store — lands in the catch
with 500, no user and no write.  The upsert block is dead code; were it
reached with an existing email it would indeed return the stored row
unchanged, as the second conjunct shows on a concrete store. -/
theorem c9_google_login_always_500 (idToken tmp : String) (salt : Nat) (db : DB) :
    googleLoginRev2 idToken tmp salt db =
      (⟨500, some "Erro no login com o Google", none, none⟩, db) ∧
    googleUpsertRev2 "ana@x.com" "Outra" (some "http://pic") "tmppass1" 3 db0 =
      (⟨200, none, some "Login successful", some user0⟩, db0) :=
  ⟨rfl, by decide⟩

/-- C10 counterexample: for PUT /property/:id the claim's "proceeds to the
lookup for id 0, yielding 404 when no such row exists" fails: an empty id
coerces to 0 and passes the id check, but the handler then fails body
validation (the rebuilt object lacks `price`) with 400 before any lookup,
even though no property 0 exists and the submitted body is schema-valid. -/
theorem c10_put_empty_id_not_404 :
    jsToNumber "" = JsNum.num 0 ∧
    joiProperty propBodyOk = none ∧
    findPropertyById emptyDB 0 = none ∧
    (putPropertyRev1 "" propBodyOk emptyDB).1.status = 400 ∧
    (putPropertyRev1 "" propBodyOk emptyDB).1.status ≠ 404 := by
  decide

/-- Evaluation of revision 1 registration on a store with no users, for a
body passing the schema: 201, one inserted row. -/
theorem registerRev1_fresh (n e un pw : String) (s : Nat) (db : DB) (hdb : db.users = [])
    (hv : joiRegisterRev1 (mkReg n e un pw) = none) :
    registerRev1 (mkReg n e un pw) s db =
      (⟨201, none, none, some ⟨db.nextUserId, n, e, un, bcryptHash pw s, none⟩⟩,
       ⟨[⟨db.nextUserId, n, e, un, bcryptHash pw s, none⟩], db.properties, db.images,
        db.nextUserId + 1, db.nextPropertyId⟩) := by
  unfold registerRev1
  rw [hv]
  simp [findUserByUsername, findUserByEmail, prismaUserCreate, hdb, mkReg]

/-- Evaluation of revision 2 registration on a store with no users. -/
theorem registerRev2_fresh (n e un pw : String) (s : Nat) (db : DB) (hdb : db.users = [])
    (hv : joiRegisterRev2 (mkReg n e un pw) = none) :
    registerRev2 (mkReg n e un pw) s db =
      (⟨201, none, none, some ⟨db.nextUserId, n, e, un, bcryptHash pw s, none⟩⟩,
       ⟨[⟨db.nextUserId, n, e, un, bcryptHash pw s, none⟩], db.properties, db.images,
        db.nextUserId + 1, db.nextPropertyId⟩) := by
  unfold registerRev2
  rw [hv]
  simp [findUserByUsername, findUserByEmail, prismaUserCreate, hdb, mkReg]

/-- C5 (amended): on a store with no prior users, revision 1 gives the first
valid registration 201 and any second one sharing the username or the email
409, creating no second row.  Revision 2 gives 409 for a shared username,
but a shared email with a distinct username passes its (username-only)
pre-check and fails the store's unique-email constraint with 500; in every
case no second user row is created. -/
theorem c5_register_uniqueness_amended
    (n1 e1 un1 pw1 n2 e2 un2 pw2 : String) (s1 s2 : Nat) (db : DB)
    (hdb : db.users = [])
    (hv1 : joiRegisterRev1 (mkReg n1 e1 un1 pw1) = none)
    (hv2 : joiRegisterRev1 (mkReg n2 e2 un2 pw2) = none)
    (hw1 : joiRegisterRev2 (mkReg n1 e1 un1 pw1) = none)
    (hw2 : joiRegisterRev2 (mkReg n2 e2 un2 pw2) = none) :
    ((registerRev1 (mkReg n1 e1 un1 pw1) s1 db).1.status = 201 ∧
     (registerRev1 (mkReg n1 e1 un1 pw1) s1 db).2.users.length = 1 ∧
     ((un2 = un1 ∨ e2 = e1) →
       (registerRev1 (mkReg n2 e2 un2 pw2) s2
          (registerRev1 (mkReg n1 e1 un1 pw1) s1 db).2).1.status = 409 ∧
       (registerRev1 (mkReg n2 e2 un2 pw2) s2
          (registerRev1 (mkReg n1 e1 un1 pw1) s1 db).2).2 =
         (registerRev1 (mkReg n1 e1 un1 pw1) s1 db).2)) ∧
    ((registerRev2 (mkReg n1 e1 un1 pw1) s1 db).1.status = 201 ∧
     (registerRev2 (mkReg n1 e1 un1 pw1) s1 db).2.users.length = 1 ∧
     (un2 = un1 →
       (registerRev2 (mkReg n2 e2 un2 pw2) s2
          (registerRev2 (mkReg n1 e1 un1 pw1) s1 db).2).1.status = 409 ∧
       (registerRev2 (mkReg n2 e2 un2 pw2) s2
          (registerRev2 (mkReg n1 e1 un1 pw1) s1 db).2).2 =
         (registerRev2 (mkReg n1 e1 un1 pw1) s1 db).2) ∧
     (e2 = e1 → un2 ≠ un1 →
       (registerRev2 (mkReg n2 e2 un2 pw2) s2
          (registerRev2 (mkReg n1 e1 un1 pw1) s1 db).2).1.status = 500 ∧
       (registerRev2 (mkReg n2 e2 un2 pw2) s2
          (registerRev2 (mkReg n1 e1 un1 pw1) s1 db).2).2 =
         (registerRev2 (mkReg n1 e1 un1 pw1) s1 db).2)) := by
  have hr1 := registerRev1_fresh n1 e1 un1 pw1 s1 db hdb hv1
  have hr2 := registerRev2_fresh n1 e1 un1 pw1 s1 db hdb hw1
  rw [hr1, hr2]
  refine ⟨⟨rfl, rfl, ?_⟩, rfl, rfl, ?_, ?_⟩
  · intro hcase
    unfold registerRev1
    rw [hv2]
    rcases hcase with hun | hem
    · subst hun
      simp [findUserByUsername, mkReg]
    · subst hem
      by_cases hun : un2 = un1
      · subst hun
        simp [findUserByUsername, mkReg]
      · simp [findUserByUsername, findUserByEmail, mkReg, Ne.symm hun]
  · intro hun
    subst hun
    unfold registerRev2
    rw [hw2]
    simp [findUserByUsername, mkReg]
  · intro hem hun
    subst hem
    unfold registerRev2
    rw [hw2]
    simp [findUserByUsername, findUserByEmail, prismaUserCreate, mkReg, Ne.symm hun]

theorem c5_register_uniqueness_amended_witness :
    emptyDB.users = [] ∧
    joiRegisterRev1 (mkReg "Ana" "ana@x.com" "ana1a" "secret1") = none ∧
    joiRegisterRev1 (mkReg "Bia" "ana@x.com" "ana1a" "secret2") = none ∧
    joiRegisterRev2 (mkReg "Ana" "ana@x.com" "ana1a" "secret1") = none ∧
    joiRegisterRev2 (mkReg "Bia" "ana@x.com" "ana1a" "secret2") = none ∧
    (((registerRev1 (mkReg "Ana" "ana@x.com" "ana1a" "secret1") 0 emptyDB).1.status = 201 ∧
      (registerRev1 (mkReg "Ana" "ana@x.com" "ana1a" "secret1") 0 emptyDB).2.users.length = 1 ∧
      (("ana1a" = "ana1a" ∨ "ana@x.com" = "ana@x.com") →
        (registerRev1 (mkReg "Bia" "ana@x.com" "ana1a" "secret2") 1
           (registerRev1 (mkReg "Ana" "ana@x.com" "ana1a" "secret1") 0 emptyDB).2).1.status = 409 ∧
        (registerRev1 (mkReg "Bia" "ana@x.com" "ana1a" "secret2") 1
           (registerRev1 (mkReg "Ana" "ana@x.com" "ana1a" "secret1") 0 emptyDB).2).2 =
          (registerRev1 (mkReg "Ana" "ana@x.com" "ana1a" "secret1") 0 emptyDB).2)) ∧
     ((registerRev2 (mkReg "Ana" "ana@x.com" "ana1a" "secret1") 0 emptyDB).1.status = 201 ∧
      (registerRev2 (mkReg "Ana" "ana@x.com" "ana1a" "secret1") 0 emptyDB).2.users.length = 1 ∧
      ("ana1a" = "ana1a" →
        (registerRev2 (mkReg "Bia" "ana@x.com" "ana1a" "secret2") 1
           (registerRev2 (mkReg "Ana" "ana@x.com" "ana1a" "secret1") 0 emptyDB).2).1.status = 409 ∧
        (registerRev2 (mkReg "Bia" "ana@x.com" "ana1a" "secret2") 1
           (registerRev2 (mkReg "Ana" "ana@x.com" "ana1a" "secret1") 0 emptyDB).2).2 =
          (registerRev2 (mkReg "Ana" "ana@x.com" "ana1a" "secret1") 0 emptyDB).2) ∧
      ("ana@x.com" = "ana@x.com" → "ana1a" ≠ "ana1a" →
        (registerRev2 (mkReg "Bia" "ana@x.com" "ana1a" "secret2") 1
           (registerRev2 (mkReg "Ana" "ana@x.com" "ana1a" "secret1") 0 emptyDB).2).1.status = 500 ∧
        (registerRev2 (mkReg "Bia" "ana@x.com" "ana1a" "secret2") 1
           (registerRev2 (mkReg "Ana" "ana@x.com" "ana1a" "secret1") 0 emptyDB).2).2 =
          (registerRev2 (mkReg "Ana" "ana@x.com" "ana1a" "secret1") 0 emptyDB).2))) :=
  ⟨rfl, by decide, by decide, by decide, by decide,
   c5_register_uniqueness_amended "Ana" "ana@x.com" "ana1a" "secret1"
     "Bia" "ana@x.com" "ana1a" "secret2" 0 1 emptyDB rfl
     (by decide) (by decide) (by decide) (by decide)⟩

/-- C6 (amended): POST /property refuses any body carrying an `images` key
with 400 (the schema rejects unknown keys) and leaves the store untouched;
a schema-valid body (hence one with no images) whose userId exists inserts
exactly one Property row — and no Image row — and returns 201 with the
created property, images not included. -/
theorem c6_create_property_amended (bImg bOk : PropertyBody) (db : DB) (uid : Int)
    (hImg : bImg.images.isSome = true)
    (hv : joiProperty bOk = none)
    (hu : bOk.userId = some uid)
    (hex : (findUserById db uid).isSome = true) :
    ((createPropertyRev1 bImg db).1.status = 400 ∧ (createPropertyRev1 bImg db).2 = db) ∧
    createPropertyRev1 bOk db =
      (⟨201, none, none, some ⟨db.nextPropertyId, bOk.title.getD "", bOk.description.getD "",
         bOk.price.getD 0, bOk.latitude.getD 0, bOk.longitude.getD 0, uid⟩⟩,
       ⟨db.users,
        db.properties ++ [⟨db.nextPropertyId, bOk.title.getD "", bOk.description.getD "",
          bOk.price.getD 0, bOk.latitude.getD 0, bOk.longitude.getD 0, uid⟩],
        db.images, db.nextUserId, db.nextPropertyId + 1⟩) := by
  constructor
  · cases hj : joiProperty bImg with
    | none =>
      have hni := joiProperty_none_images bImg hj
      rw [hni] at hImg
      simp at hImg
    | some msg =>
      unfold createPropertyRev1
      rw [hj]
      exact ⟨rfl, rfl⟩
  · obtain ⟨u, hfu⟩ := Option.isSome_iff_exists.mp hex
    unfold createPropertyRev1
    rw [hv]
    simp [hu, hfu]

theorem c6_create_property_amended_witness :
    propBodyImgs.images.isSome = true ∧
    joiProperty propBodyOk = none ∧
    propBodyOk.userId = some 1 ∧
    (findUserById db0 1).isSome = true ∧
    (((createPropertyRev1 propBodyImgs db0).1.status = 400 ∧
      (createPropertyRev1 propBodyImgs db0).2 = db0) ∧
     createPropertyRev1 propBodyOk db0 =
       (⟨201, none, none, some ⟨db0.nextPropertyId, propBodyOk.title.getD "",
          propBodyOk.description.getD "", propBodyOk.price.getD 0, propBodyOk.latitude.getD 0,
          propBodyOk.longitude.getD 0, 1⟩⟩,
        ⟨db0.users,
         db0.properties ++ [⟨db0.nextPropertyId, propBodyOk.title.getD "",
           propBodyOk.description.getD "", propBodyOk.price.getD 0, propBodyOk.latitude.getD 0,
           propBodyOk.longitude.getD 0, 1⟩],
         db0.images, db0.nextUserId, db0.nextPropertyId + 1⟩)) :=
  ⟨by decide, by decide, by decide, by decide,
   c6_create_property_amended propBodyImgs propBodyOk db0 1
     (by decide) (by decide) (by decide) (by decide)⟩

/-- C8: GET /property/user with a numeric userId owning zero properties
answers 404 (not an empty 200 list); with a userId owning at least one
property it answers 200 with every property of that owner, each paired with
its images. -/
theorem c8_props_by_user_404_or_list (raw : String) (db : DB) (uid : Int)
    (hn : jsToNumber raw = JsNum.num (uid : ℚ)) :
    (propertiesOfUser db uid = [] →
      propsByUserRev1 raw db =
        ⟨404, none, some "Nenhum imóvel encontrado para este usuário", none⟩) ∧
    (propertiesOfUser db uid ≠ [] →
      propsByUserRev1 raw db =
        ⟨200, none, none,
         some ((propertiesOfUser db uid).map (fun p => (p, imagesOf db p.id)))⟩) := by
  unfold propsByUserRev1
  rw [hn]
  have hden : (uid : ℚ).den = 1 := Rat.den_intCast uid
  have hnum : (uid : ℚ).num = uid := Rat.num_intCast uid
  constructor
  · intro h
    simp [hden, hnum, h]
  · intro h
    cases hpl : propertiesOfUser db uid with
    | nil => exact absurd hpl h
    | cons p ps => simp [hden, hnum, hpl]

theorem c8_props_by_user_404_or_list_witness :
    jsToNumber "1" = JsNum.num ((1 : Int) : ℚ) ∧
    ((propertiesOfUser db0 1 = [] →
       propsByUserRev1 "1" db0 =
         ⟨404, none, some "Nenhum imóvel encontrado para este usuário", none⟩) ∧
     (propertiesOfUser db0 1 ≠ [] →
       propsByUserRev1 "1" db0 =
         ⟨200, none, none,
          some ((propertiesOfUser db0 1).map (fun p => (p, imagesOf db0 p.id)))⟩)) :=
  ⟨by decide, c8_props_by_user_404_or_list "1" db0 1 (by decide)⟩

/-- C10 (amended): in all five id-taking handlers the invalid-id 400 branch
fires exactly when `Number` of the raw identifier is NaN.  An empty or
whitespace-only identifier coerces to 0 and passes the id check; the four
GET/DELETE handlers then proceed to the lookup for id 0 and answer 404 when
no such row exists, while PUT instead fails body validation with 400 (a
different message than its invalid-id one) before any lookup. -/
theorem c10_id_coercion_amended (raw rawWs : String) (b : PropertyBody) (db : DB)
    (hws : rawWs.toList.all isJsWs = true)
    (hu0 : findUserById db 0 = none)
    (hp0 : findPropertyById db 0 = none)
    (hl0 : propertiesOfUser db 0 = []) :
    ((getUserByIdRev1 raw db).status = 400 ↔ jsToNumber raw = JsNum.nan) ∧
    ((propsByUserRev1 raw db).status = 400 ↔ jsToNumber raw = JsNum.nan) ∧
    ((getImovelRev1 raw db).status = 400 ↔ jsToNumber raw = JsNum.nan) ∧
    ((deletePropertyRev1 raw db).1.status = 400 ↔ jsToNumber raw = JsNum.nan) ∧
    ((putPropertyRev1 raw b db).1.error = some "ID do imóvel deve ser um número" ↔
      jsToNumber raw = JsNum.nan) ∧
    jsToNumber rawWs = JsNum.num 0 ∧
    (getUserByIdRev1 rawWs db).status = 404 ∧
    (propsByUserRev1 rawWs db).status = 404 ∧
    (getImovelRev1 rawWs db).status = 404 ∧
    (deletePropertyRev1 rawWs db).1.status = 404 ∧
    (putPropertyRev1 rawWs b db).1.status = 400 ∧
    (putPropertyRev1 rawWs b db).1.error ≠ some "ID do imóvel deve ser um número" := by
  have h0 := jsToNumber_all_ws rawWs hws
  obtain ⟨e, he, hne⟩ := putJoi_exists b
  refine ⟨getUser_400_iff raw db, propsByUser_400_iff raw db, getImovel_400_iff raw db,
    deleteRev1_400_iff raw db, putRev1_idError_iff raw b db, h0, ?_, ?_, ?_, ?_, ?_, ?_⟩
  · unfold getUserByIdRev1
    rw [h0]
    simp [hu0]
  · unfold propsByUserRev1
    rw [h0]
    simp [hl0]
  · unfold getImovelRev1
    rw [h0]
    simp [hp0]
  · unfold deletePropertyRev1
    rw [h0]
    simp [hp0]
  · unfold putPropertyRev1
    rw [h0, he]
  · unfold putPropertyRev1
    rw [h0, he]
    simp [hne]

theorem c10_id_coercion_amended_witness :
    " ".toList.all isJsWs = true ∧
    findUserById emptyDB 0 = none ∧
    findPropertyById emptyDB 0 = none ∧
    propertiesOfUser emptyDB 0 = [] ∧
    (((getUserByIdRev1 "abc" emptyDB).status = 400 ↔ jsToNumber "abc" = JsNum.nan) ∧
     ((propsByUserRev1 "abc" emptyDB).status = 400 ↔ jsToNumber "abc" = JsNum.nan) ∧
     ((getImovelRev1 "abc" emptyDB).status = 400 ↔ jsToNumber "abc" = JsNum.nan) ∧
     ((deletePropertyRev1 "abc" emptyDB).1.status = 400 ↔ jsToNumber "abc" = JsNum.nan) ∧
     ((putPropertyRev1 "abc" propBodyOk emptyDB).1.error =
        some "ID do imóvel deve ser um número" ↔ jsToNumber "abc" = JsNum.nan) ∧
     jsToNumber " " = JsNum.num 0 ∧
     (getUserByIdRev1 " " emptyDB).status = 404 ∧
     (propsByUserRev1 " " emptyDB).status = 404 ∧
     (getImovelRev1 " " emptyDB).status = 404 ∧
     (deletePropertyRev1 " " emptyDB).1.status = 404 ∧
     (putPropertyRev1 " " propBodyOk emptyDB).1.status = 400 ∧
     (putPropertyRev1 " " propBodyOk emptyDB).1.error ≠ some "ID do imóvel deve ser um número") :=
  ⟨by decide, by decide, by decide, by decide,
   c10_id_coercion_amended "abc" " " propBodyOk emptyDB
     (by decide) (by decide) (by decide) (by decide)⟩
